import Mathlib

/-!
Shallow embedding of the two Houdini batch-render scripts
(`render_sweep.py` and `render_sweep1.py`) and proofs about them.

Modelling conventions:
* A host-application parameter (`hou.Parm`) is a record of its internal
  name, its UI label (`description()`, possibly absent) and its value.
* A node (`hou.Node`) is its path plus its parameter list in the
  host-defined iteration order; `node.parm(name)` is a first-match lookup
  by internal name and `parm.set(v)` is modelled by rewriting the value of
  the parameter(s) with that name.
* Python string operations used by the scripts (`lower`, `strip`,
  substring membership `in`) are defined over the character list of the
  Lean string.
* Floats are modelled as rationals; the two/three/four-digit f-string
  formats are reproduced for the exact decimal values the scripts use.
* Wall-clock timing (`time.time()`) and the actual render side effect are
  external to the scene model; a render invocation is recorded as the pair
  (frame number, output file set on the ROP at that moment).
-/

/-- Boolean test that `pre` is a prefix of `l` (used to model Python
substring membership). -/
def isPrefixChars : List Char → List Char → Bool
  | [], _ => true
  | _ :: _, [] => false
  | a :: as, b :: bs => a == b && isPrefixChars as bs

/-- Boolean test that `needle` occurs contiguously inside `hay`; models
Python `needle in hay` on strings. -/
def containsChars : List Char → List Char → Bool
  | needle, [] => needle.isEmpty
  | needle, c :: rest => isPrefixChars needle (c :: rest) || containsChars needle rest

/-- Python `needle in hay` for strings. -/
def pyContains (hay needle : String) : Bool :=
  containsChars needle.data hay.data

/-- Python `s.lower()` (character-wise lowering). -/
def pyLower (s : String) : String :=
  ⟨s.data.map Char.toLower⟩

/-- Characters remaining after removing leading and trailing whitespace. -/
def stripChars (l : List Char) : List Char :=
  ((l.dropWhile Char.isWhitespace).reverse.dropWhile Char.isWhitespace).reverse

/-- Python `s.strip()`. -/
def pyStrip (s : String) : String :=
  ⟨stripChars s.data⟩

/-- Value stored in a host parameter: float, int or string. -/
inductive PValue where
  | num (q : ℚ)
  | int (z : ℤ)
  | str (s : String)
deriving DecidableEq

/-- A host-application parameter: internal name, optional UI label
(`description()`), current value. -/
structure Parm where
  name : String
  label : Option String
  value : PValue
deriving DecidableEq

/-- The label with the `(p.description() or "")` guard applied. -/
def Parm.labelText (p : Parm) : String :=
  p.label.getD ""

/-- A scene-graph node: its path and its parameters in host iteration
order. -/
structure Node where
  path : String
  parms : List Parm
deriving DecidableEq

/-- `node.parm(name)`: first parameter with the given internal name. -/
def Node.parm (n : Node) (parm_name : String) : Option Parm :=
  n.parms.find? (fun p => p.name == parm_name)

/-- `parm.set(v)` for the parameter(s) named `parm_name`; names and labels
are untouched. -/
def Node.setParm (n : Node) (parm_name : String) (v : PValue) : Node :=
  ⟨n.path, n.parms.map (fun p => if p.name == parm_name then ⟨p.name, p.label, v⟩ else p)⟩

namespace RenderSweep

/-- Candidate internal names tried by `render_sweep.py`, in order. -/
def output_picture_candidates : List String :=
  ["picture", "vm_picture", "outputpicture", "output_picture", "ri_picture", "image", "filename"]

/-- Tier 1 of `render_sweep.py:find_output_picture_parm`: probe the
candidate names in order. -/
def tier1 (rop : Node) : Option Parm :=
  output_picture_candidates.findSome? (fun c => rop.parm c)

/-- Per-parameter condition of the tier-2 loop of
`render_sweep.py:find_output_picture_parm` (both `if` statements of one
loop iteration). -/
def tier2Pred (p : Parm) : Bool :=
  let label := pyLower p.labelText
  let nm := pyLower p.name
  (pyContains label "output picture" || (pyContains label "picture" && pyContains label "output"))
    || (pyContains nm "output picture" || (pyContains nm "picture" && pyContains nm "output"))

/-- Tier 2 of `render_sweep.py:find_output_picture_parm`: label/name
substring search. -/
def tier2 (rop : Node) : Option Parm :=
  rop.parms.find? tier2Pred

/-- Tier 3 of `render_sweep.py:find_output_picture_parm`: first parameter
whose stripped, lowered label is exactly `picture`. -/
def tier3 (rop : Node) : Option Parm :=
  rop.parms.find? (fun p => pyLower (pyStrip p.labelText) == "picture")

/-- Error message raised when all tiers fail (`render_sweep.py`). -/
def outputParmError (node_path : String) : String :=
  "Could not locate an output image parm on " ++ node_path
    ++ ". Next step: in Houdini UI, right-click the Output Picture field -> Copy Parameter -> Copy Parameter Name, then tell me what you got."

/-- `render_sweep.py:find_output_picture_parm`. -/
def find_output_picture_parm (rop : Node) : Except String Parm :=
  match tier1 rop with
  | some p => .ok p
  | none =>
    match tier2 rop with
    | some p => .ok p
    | none =>
      match tier3 rop with
      | some p => .ok p
      | none => .error (outputParmError rop.path)

end RenderSweep

namespace RenderSweep1

/-- `render_sweep1.py:find_parm_by_label_contains`. -/
def find_parm_by_label_contains (node : Node) (needles : List String) : Option Parm :=
  let needles := needles.map pyLower
  node.parms.find? (fun p =>
    let label := pyLower p.labelText
    let nm := pyLower p.name
    needles.any (fun nd => pyContains label nd) || needles.any (fun nd => pyContains nm nd))

/-- Candidate internal names tried by `render_sweep1.py`, in order. -/
def output_picture_candidates : List String :=
  ["picture", "outputpicture", "output_picture", "vm_picture", "ri_picture", "filename", "image"]

/-- Tier-2 needles for the output-picture concept in `render_sweep1.py`. -/
def output_picture_needles : List String :=
  ["output picture", "picture"]

/-- Error message raised when both tiers fail (`render_sweep1.py`). -/
def outputParmError (node_path : String) : String :=
  "Could not locate Output Picture parm on " ++ node_path
    ++ ". UI fallback: right-click Output Picture field -> Copy Parameter -> Copy Parameter Name"

/-- `render_sweep1.py:find_output_picture_parm`. -/
def find_output_picture_parm (rop : Node) : Except String Parm :=
  match output_picture_candidates.findSome? (fun c => rop.parm c) with
  | some p => .ok p
  | none =>
    match find_parm_by_label_contains rop output_picture_needles with
    | some p => .ok p
    | none => .error (outputParmError rop.path)

/-- Candidate internal names tried by `render_sweep1.py:set_pixel_samples`. -/
def pixel_samples_candidates : List String :=
  ["pxsamples", "karma_pixelsamples", "pixel_samples", "pixelsamples", "samplesperpixel"]

/-- Label-search needles of `render_sweep1.py:set_pixel_samples`. -/
def pixel_samples_needles : List String :=
  ["pixel samples", "samples per pixel", "samples/pixel"]

/-- `render_sweep1.py:set_pixel_samples`: returns the updated ROP node and
the name written to the log (`<not_found>` when nothing was resolved). -/
def set_pixel_samples (rop : Node) (samples : ℤ) : Node × String :=
  match pixel_samples_candidates.findSome? (fun c => rop.parm c) with
  | some p => (rop.setParm p.name (.int samples), p.name)
  | none =>
    match find_parm_by_label_contains rop pixel_samples_needles with
    | some p => (rop.setParm p.name (.int samples), p.name)
    | none => (rop, "<not_found>")

/-- Rotation value `frac * degrees` computed inside
`render_sweep1.py:rotate_camera_turntable`. -/
def turntable_ry (frame_idx total_frames : ℕ) (degrees : ℚ) : ℚ :=
  ((frame_idx : ℚ) / ((total_frames : ℚ) - 1)) * degrees

/-- `render_sweep1.py:rotate_camera_turntable`. -/
def rotate_camera_turntable (cam : Node) (frame_idx : ℕ) (total_frames : ℕ) (degrees : ℚ) : Node :=
  if total_frames ≤ 1 then cam
  else
    match cam.parm "ry" with
    | none => cam
    | some _ => cam.setParm "ry" (.num (turntable_ry frame_idx total_frames degrees))

end RenderSweep1

namespace RenderSweep1

/-- A Pillow image, reduced to its pixel dimensions. -/
structure PyImage where
  width : ℕ
  height : ℕ
deriving DecidableEq

/-- The image-processing capability (`try_import_pillow`): when present it
provides the downscale-to-thumbnail operation
(`convert("RGB")` + `thumbnail((480, 480))`), which is external library
behaviour and is treated as opaque here. -/
structure Pillow where
  thumbnail : PyImage → PyImage

/-- The composite sheet assembled by `build_contact_sheet`: grid shape and
cell size (`cols*w` by `rows*h` canvas). -/
structure ContactSheet where
  cols : ℕ
  rows : ℕ
  cellWidth : ℕ
  cellHeight : ℕ
deriving DecidableEq

/-- `render_sweep1.py:build_contact_sheet`. The filesystem glob result
(`sorted(outputs_dir.glob(glob_pattern))`, with each file opened as an
image) is external input, passed as the `images` list; `pillow = none`
models Pillow being uninstalled. Returns the saved sheet path and the
sheet, or `none` when the step is skipped. -/
def build_contact_sheet (pillow : Option Pillow) (outputs_dir : String)
    (images : List (String × PyImage)) (cols : ℕ) : Option (String × ContactSheet) :=
  match pillow with
  | none => none
  | some api =>
    if images.isEmpty then none
    else
      let thumbs := images.map (fun pi => (pi.1, api.thumbnail pi.2))
      let rows := (thumbs.length + cols - 1) / cols
      let w := (thumbs.map (fun t => t.2.width)).foldl max 0
      let h := (thumbs.map (fun t => t.2.height)).foldl max 0
      some (outputs_dir ++ "/contact_sheet.png", ⟨cols, rows, w, h⟩)

end RenderSweep1

instance : DecidableEq (Except String Parm) := fun a b =>
  match a, b with
  | .error x, .error y =>
    if h : x = y then isTrue (congrArg Except.error h) else isFalse (fun hc => h (Except.error.inj hc))
  | .error _, .ok _ => isFalse (fun hc => Except.noConfusion hc)
  | .ok _, .error _ => isFalse (fun hc => Except.noConfusion hc)
  | .ok x, .ok y =>
    if h : x = y then isTrue (congrArg Except.ok h) else isFalse (fun hc => h (Except.ok.inj hc))

namespace RenderSweep1

/-- Zero-padding of a natural number to `width` digits; models Python
percent-style zero-padded integer formatting for nonnegative `n`. -/
def natPad (width n : ℕ) : String :=
  let s := toString n
  ⟨List.replicate (width - s.data.length) '0' ++ s.data⟩

/-- Python three-wide zero-padded integer formatting (format spec 03d). -/
def fmtInt3 (z : ℤ) : String :=
  if z < 0 then "-" ++ natPad 2 z.natAbs else natPad 3 z.natAbs

/-- Python fixed two-decimal float formatting (format spec .2f) of the rational
`q`, rounding `|q|*100` half away from zero; on the exact two-decimal
values used by the script this agrees with the host float formatting. -/
def fmtFloat2 (q : ℚ) : String :=
  let h := (q.num.natAbs * 100 * 2 + q.den) / (q.den * 2)
  (if q.num < 0 then "-" else "") ++ toString (h / 100) ++ "." ++ natPad 2 (h % 100)

/-- The immutable sweep configuration (`SweepConfig` dataclass). -/
structure SweepConfig where
  roughness : List ℚ
  light_intensity : List ℚ
  pixel_samples : List ℤ
  turntable_frames : ℕ
  turntable_degrees : ℚ
deriving DecidableEq

/-- The configuration hard-coded in `render_sweep1.py:main`. -/
def mainConfig : SweepConfig :=
  ⟨[0.1, 0.3, 0.5, 0.7, 0.9], [1.5, 2.5, 3.5], [16, 32], 12, 360.0⟩

/-- `itertools.product(cfg.roughness, cfg.light_intensity, cfg.pixel_samples)`
as a list, in product order. -/
def combosList (cfg : SweepConfig) : List (ℚ × ℚ × ℤ) :=
  cfg.roughness.flatMap (fun r =>
    cfg.light_intensity.flatMap (fun li =>
      cfg.pixel_samples.map (fun ps => (r, li, ps))))

/-- One CSV row of `render_log.csv` (the `seconds` column is external
wall-clock time and is not modelled). -/
structure RenderRecord where
  roughness : String
  light_intensity : String
  pixel_samples : ℤ
  frame : ℕ
  output_file : String
  ps_parm_used : String
deriving DecidableEq

/-- The scene nodes mutated by `main`. -/
structure SweepState where
  rop : Node
  mat : Node
  light : Node
  cam : Node
deriving DecidableEq

/-- The per-variation directory suffix
`/rough_<r>/light_<li>/spp_<ps>` relative to the output directory. -/
def relVarDir (r li : ℚ) (ps : ℤ) : String :=
  "/rough_" ++ fmtFloat2 r ++ "/light_" ++ fmtFloat2 li ++ "/spp_" ++ fmtInt3 ps

/-- The per-variation directory `outdir/rough_<r>/light_<li>/spp_<ps>` with two-decimal floats and three-wide samples. -/
def varDirPath (outdir : String) (r li : ℚ) (ps : ℤ) : String :=
  outdir ++ relVarDir r li ps

/-- The per-frame output file `var_dir/frame_<nnnn>.png` with the 1-based frame number four-wide zero-padded. -/
def frameFilePath (var_dir : String) (frame : ℕ) : String :=
  var_dir ++ "/frame_" ++ natPad 4 frame ++ ".png"

/-- A render invocation: the single frame rendered and the output file
set on the ROP when `render` was called. -/
abbrev RenderCall := ℕ × String

/-- One iteration of the inner frame loop of `main`: rotate the camera,
set the output-picture parameter, render, emit one CSV row. The
accumulator carries (camera, ROP, rows-and-calls emitted so far). -/
def frameStep (outName var_dir : String) (total_frames : ℕ) (degrees : ℚ)
    (mkRow : ℕ → String → RenderRecord)
    (acc : Node × Node × List (RenderRecord × RenderCall)) (frame_idx : ℕ) :
    Node × Node × List (RenderRecord × RenderCall) :=
  let frame := 1 + frame_idx
  let cam := rotate_camera_turntable acc.1 frame_idx total_frames degrees
  let out_file := frameFilePath var_dir frame
  let rop := acc.2.1.setParm outName (.str out_file)
  (cam, rop, acc.2.2 ++ [(mkRow frame out_file, (frame, out_file))])

/-- One iteration of the outer combination loop of `main`: set roughness,
light intensity and pixel samples, then run the frame loop. -/
def comboStep (roughName lightName outName outdir : String) (cfg : SweepConfig)
    (st : SweepState × List (RenderRecord × RenderCall)) (combo : ℚ × ℚ × ℤ) :
    SweepState × List (RenderRecord × RenderCall) :=
  let r := combo.1
  let li := combo.2.1
  let ps := combo.2.2
  let mat := st.1.mat.setParm roughName (.num r)
  let light := st.1.light.setParm lightName (.num li)
  let ropPs := set_pixel_samples st.1.rop ps
  let var_dir := varDirPath outdir r li ps
  let mkRow : ℕ → String → RenderRecord := fun frame out_file =>
    ⟨fmtFloat2 r, fmtFloat2 li, ps, frame, out_file, ropPs.2⟩
  let inner := (List.range cfg.turntable_frames).foldl
    (frameStep outName var_dir cfg.turntable_frames cfg.turntable_degrees mkRow)
    (st.1.cam, ropPs.1, [])
  (⟨inner.2.1, mat, light, inner.1⟩, st.2 ++ inner.2.2)

/-- The sweep loop of `main`, parameterised over the resolved parameter
names and the output directory, threading the scene state. -/
def runSweep (roughName lightName outName outdir : String) (cfg : SweepConfig)
    (st : SweepState) : SweepState × List (RenderRecord × RenderCall) :=
  (combosList cfg).foldl (comboStep roughName lightName outName outdir cfg) (st, [])

/-- The Render Records (CSV rows) emitted by a run, in emission order. -/
def sweepRecords (roughName lightName outName outdir : String) (cfg : SweepConfig)
    (st : SweepState) : List RenderRecord :=
  (runSweep roughName lightName outName outdir cfg st).2.map Prod.fst

/-- The render invocations performed by a run, in order. -/
def sweepRenderCalls (roughName lightName outName outdir : String) (cfg : SweepConfig)
    (st : SweepState) : List RenderCall :=
  (runSweep roughName lightName outName outdir cfg st).2.map Prod.snd

end RenderSweep1

namespace RenderSweep1

/-- The hard-coded configuration with its rationals in reduced
constructor form (`0.1 = 1/10`, `1.5 = 3/2`, ..., `360.0 = 360`), which
the kernel can evaluate. -/
def mainConfigK : SweepConfig :=
  ⟨[⟨1, 10, by decide, by decide⟩, ⟨3, 10, by decide, by decide⟩, ⟨1, 2, by decide, by decide⟩,
      ⟨7, 10, by decide, by decide⟩, ⟨9, 10, by decide, by decide⟩],
    [⟨3, 2, by decide, by decide⟩, ⟨5, 2, by decide, by decide⟩, ⟨7, 2, by decide, by decide⟩],
    [16, 32], 12, ⟨360, 1, by decide, by decide⟩⟩

/-- The (roughness, light_intensity, pixel_samples, frame) columns of a
CSV row. -/
def rowTuple (rec : RenderRecord) : String × String × ℤ × ℕ :=
  (rec.roughness, rec.light_intensity, rec.pixel_samples, rec.frame)

/-- A CSV row with its state-dependent `ps_parm_used` column dropped,
paired with the corresponding render call. -/
def stripPair (x : RenderRecord × RenderCall) :
    ((String × String × ℤ × ℕ) × String) × RenderCall :=
  (((x.1.roughness, x.1.light_intensity, x.1.pixel_samples, x.1.frame), x.1.output_file), x.2)

/-- The stripped rows and calls emitted for one combination. -/
def comboRowKeys (outdir : String) (frames : ℕ) (c : ℚ × ℚ × ℤ) :
    List (((String × String × ℤ × ℕ) × String) × RenderCall) :=
  (List.range frames).map (fun i =>
    (((fmtFloat2 c.1, fmtFloat2 c.2.1, c.2.2, 1 + i),
        frameFilePath (varDirPath outdir c.1 c.2.1 c.2.2) (1 + i)),
      (1 + i, frameFilePath (varDirPath outdir c.1 c.2.1 c.2.2) (1 + i))))

/-- The (roughness, light, samples, frame) tuples emitted for one
combination. -/
def comboTupleKeys (frames : ℕ) (c : ℚ × ℚ × ℤ) : List (String × String × ℤ × ℕ) :=
  (List.range frames).map (fun i => (fmtFloat2 c.1, fmtFloat2 c.2.1, c.2.2, 1 + i))

/-- The output path of a row, relative to the output directory, as a
function of its tuple. -/
def relPathOfKey (k : String × String × ℤ × ℕ) : String :=
  "/rough_" ++ k.1 ++ "/light_" ++ k.2.1 ++ "/spp_" ++ fmtInt3 k.2.2.1
    ++ "/frame_" ++ natPad 4 k.2.2.2 ++ ".png"

/-- The 360 tuples of the configured run, in emission order. -/
def mainTupleKeys : List (String × String × ℤ × ℕ) :=
  (combosList mainConfigK).flatMap (comboTupleKeys 12)

/-- The 360 outdir-relative output paths of the configured run, in
emission order. -/
def mainRelPaths : List String :=
  mainTupleKeys.map relPathOfKey

/-- Injective base-1114112 encoding of a string (code points shifted by
one), used to compare strings through fast natural-number arithmetic. -/
def encodeStr (s : String) : ℕ :=
  s.data.foldl (fun acc c => acc * 1114112 + (c.toNat + 1)) 0

/-- Adjacent strict-increase check on a list of naturals. -/
def chainLtNat : List ℕ → Bool
  | [] => true
  | [_] => true
  | a :: b :: t => Nat.blt a b && chainLtNat (b :: t)

/-- No parameter of `rop` resolves the pixel-sample concept: none of the
candidate names exists and the label search fails. -/
def psUnresolvable (rop : Node) : Prop :=
  (∀ c ∈ pixel_samples_candidates, rop.parm c = none)
  ∧ find_parm_by_label_contains rop pixel_samples_needles = none

/-- The enumeration order stated by the spec: the Cartesian product of
(roughness × light_intensity × pixel_samples), outer to inner, each
combination then expanded over the frame indices 0..N-1. -/
def specCartesianOrder (cfg : SweepConfig) : List (ℚ × ℚ × ℤ × ℕ) :=
  ((((cfg.roughness ×ˢ cfg.light_intensity) ×ˢ cfg.pixel_samples)
      ×ˢ List.range cfg.turntable_frames)).map
    (fun x => (x.1.1.1, x.1.1.2, x.1.2, x.2))

/-- Strict lexicographic order on configured tuples. -/
def tupleLexLt (a b : ℚ × ℚ × ℤ × ℕ) : Bool :=
  decide (a.1 < b.1) || (a.1 == b.1 && (decide (a.2.1 < b.2.1) || (a.2.1 == b.2.1
    && (decide (a.2.2.1 < b.2.2.1) || (a.2.2.1 == b.2.2.1 && decide (a.2.2.2 < b.2.2.2))))))

/-- Adjacent strict-increase check under a boolean relation. -/
def chainB {α : Type} (R : α → α → Bool) : List α → Bool
  | [] => true
  | [_] => true
  | a :: b :: t => R a b && chainB R (b :: t)

end RenderSweep1

/-- Claim C1 counterexample: a node whose single parameter mentions
`picture` in both label and name but never `output`; tier 2 of
`render_sweep.py` rejects it, while the tier-2 label search of
`render_sweep1.py` returns it, so tier 2 does not require the co-occurrence of `output`. -/
def pictureOnlyNode : Node :=
  ⟨"/out/karma1", [⟨"picturefile", some "Picture File", .str ""⟩]⟩

/-- Witness node for the amended claim C1. -/
def pictureOnlyNodeW : Node :=
  ⟨"/out/karma2", [⟨"imgfile", some "Picture Path", .str ""⟩]⟩

/-- Witness camera for claim C3. -/
def camC3 : Node := ⟨"/obj/render_cam", [⟨"ry", some "Rotate Y", .num 0⟩]⟩

/-- Witness scene for claim C5: the ROP has a single unrelated parameter. -/
def stC5 : RenderSweep1.SweepState :=
  ⟨⟨"/out/karma1", [⟨"foo", some "Bar", .str ""⟩]⟩,
    ⟨"/mat/test_material", [⟨"rough", some "Roughness", .num 0⟩]⟩,
    ⟨"/obj/env_light", [⟨"light_intensity", some "Light Intensity", .num 1⟩]⟩,
    ⟨"/obj/render_cam", [⟨"ry", some "Rotate Y", .num 0⟩]⟩⟩

/-- Witness node for claim C6: tiers 1 and 2 fail, the exact-label probe
matches the label ` Picture `. -/
def exactLabelNode : Node := ⟨"/out/karma3", [⟨"foo", some " Picture ", .str ""⟩]⟩

/-- Counterexample node for claim C7: it exposes two tier-1 candidate
names, which the two scripts probe in different orders. -/
def dualCandidateNode : Node :=
  ⟨"/out/karma4", [⟨"outputpicture", none, .str ""⟩, ⟨"vm_picture", none, .str ""⟩]⟩

/-- Witness node for the amended claim C7. -/
def vmPictureNode : Node :=
  ⟨"/out/karma5", [⟨"vm_picture", some "Output Picture", .str ""⟩]⟩

/-- Witness inputs for claim C9: an identity thumbnail capability and
seven one-pixel images. -/
def apiC9 : RenderSweep1.Pillow := ⟨fun im => im⟩

/-- Witness image list for claim C9. -/
def imagesC9 : List (String × RenderSweep1.PyImage) :=
  [("a", ⟨1, 1⟩), ("b", ⟨1, 1⟩), ("c", ⟨1, 1⟩), ("d", ⟨1, 1⟩),
    ("e", ⟨1, 1⟩), ("f", ⟨1, 1⟩), ("g", ⟨1, 1⟩)]

/-- Witness camera for claim C10. -/
def camC10 : Node :=
  ⟨"/obj/render_cam", [⟨"tx", some "Translate X", .num 5⟩, ⟨"ry", some "Rotate Y", .num 0⟩]⟩

lemma isPrefixChars_iff : ∀ n h : List Char, isPrefixChars n h = true ↔ n <+: h := by
  intro n
  induction n with
  | nil => intro h; simp [isPrefixChars, List.nil_prefix]
  | cons a as ih =>
    intro h
    cases h with
    | nil =>
      rw [isPrefixChars]
      constructor
      · intro hc; cases hc
      · intro hc
        have := hc.length_le
        simp at this
    | cons b bs =>
      rw [isPrefixChars, Bool.and_eq_true, beq_iff_eq, List.cons_prefix_cons, ih bs]

lemma containsChars_iff : ∀ n h : List Char, containsChars n h = true ↔ n <:+: h := by
  intro n h
  induction h with
  | nil => simp [containsChars, List.isEmpty_iff, List.infix_nil]
  | cons c t ih =>
    rw [containsChars, Bool.or_eq_true, isPrefixChars_iff, ih, List.infix_cons_iff]

lemma pyContains_mono (hay n₁ n₂ : String) (hsub : n₁.data <:+: n₂.data)
    (h : pyContains hay n₂ = true) : pyContains hay n₁ = true := by
  unfold pyContains at h ⊢
  rw [containsChars_iff] at h ⊢
  exact hsub.trans h

lemma stripChars_isSub (l : List Char) : stripChars l <:+: l := by
  unfold stripChars
  have h1 : l.dropWhile Char.isWhitespace <:+ l := List.dropWhile_suffix _
  have h2 : ((l.dropWhile Char.isWhitespace).reverse.dropWhile Char.isWhitespace).reverse
      <+: l.dropWhile Char.isWhitespace := by
    rw [← List.reverse_suffix, List.reverse_reverse]
    exact List.dropWhile_suffix _
  have h2i := List.IsPrefix.isInfix h2
  have h1i := List.IsSuffix.isInfix h1
  exact h2i.trans h1i

lemma strip_lower_picture_contains (s : String)
    (h : pyLower (pyStrip s) = "picture") : pyContains (pyLower s) "picture" = true := by
  unfold pyContains
  rw [containsChars_iff]
  have hd : ("picture" : String).data = (stripChars s.data).map Char.toLower :=
    (congrArg String.data h).symm
  rw [hd]
  show (stripChars s.data).map Char.toLower <:+: s.data.map Char.toLower
  have hsub := stripChars_isSub s.data
  exact hsub.map Char.toLower

namespace RenderSweep1

lemma mainConfig_eq : mainConfig = mainConfigK := by
  unfold mainConfig mainConfigK
  rw [Rat.mk'_eq_divInt, Rat.mk'_eq_divInt, Rat.mk'_eq_divInt, Rat.mk'_eq_divInt,
    Rat.mk'_eq_divInt, Rat.mk'_eq_divInt, Rat.mk'_eq_divInt, Rat.mk'_eq_divInt,
    Rat.mk'_eq_divInt]
  norm_num [Rat.divInt_eq_div]

lemma chainLtNat_pairwise : ∀ l : List ℕ, chainLtNat l = true → List.Pairwise (· < ·) l := by
  intro l
  induction l with
  | nil => intro; exact List.Pairwise.nil
  | cons a t ih =>
    cases t with
    | nil => intro; exact List.pairwise_singleton _ a
    | cons b u =>
      intro h
      rw [chainLtNat, Bool.and_eq_true, Nat.blt_eq] at h
      have hp := ih h.2
      refine List.Pairwise.cons ?_ hp
      intro y hy
      rcases List.mem_cons.mp hy with hyb | hyu
      · exact hyb ▸ h.1
      · exact h.1.trans (List.rel_of_pairwise_cons hp hyu)

lemma chainLtNat_nodup (l : List ℕ) (h : chainLtNat l = true) : l.Nodup :=
  (chainLtNat_pairwise l h).imp ne_of_lt

set_option maxRecDepth 100000 in
lemma mainRelPathsEnc_sorted : chainLtNat (mainRelPaths.map encodeStr) = true := by decide

lemma mainRelPaths_nodup : mainRelPaths.Nodup :=
  List.Nodup.of_map encodeStr (chainLtNat_nodup _ mainRelPathsEnc_sorted)

lemma mainTupleKeys_nodup : mainTupleKeys.Nodup :=
  List.Nodup.of_map relPathOfKey mainRelPaths_nodup

lemma append_left_injective (a : String) : Function.Injective (fun s => a ++ s) := by
  intro x y h
  have hd : a.data ++ x.data = a.data ++ y.data := by
    have := congrArg String.data h
    rwa [String.data_append, String.data_append] at this
  cases x
  cases y
  exact congrArg String.mk (List.append_cancel_left hd)

lemma foldl_frameStep_rows (outName var_dir : String) (N : ℕ) (deg : ℚ)
    (mkRow : ℕ → String → RenderRecord) :
    ∀ (l : List ℕ) (cam rop : Node) (acc : List (RenderRecord × RenderCall)),
      (l.foldl (frameStep outName var_dir N deg mkRow) (cam, rop, acc)).2.2
        = acc ++ l.map (fun i =>
            (mkRow (1 + i) (frameFilePath var_dir (1 + i)),
              (1 + i, frameFilePath var_dir (1 + i)))) := by
  intro l
  induction l with
  | nil => intro cam rop acc; simp
  | cons a t ih =>
    intro cam rop acc
    simp only [List.foldl_cons, List.map_cons]
    rw [show frameStep outName var_dir N deg mkRow (cam, rop, acc) a
        = (rotate_camera_turntable cam a N deg,
            Node.setParm rop outName (.str (frameFilePath var_dir (1 + a))),
            acc ++ [(mkRow (1 + a) (frameFilePath var_dir (1 + a)),
              (1 + a, frameFilePath var_dir (1 + a)))]) from rfl]
    rw [ih]
    simp

lemma foldl_frameStep_rop (outName var_dir : String) (N : ℕ) (deg : ℚ)
    (mkRow : ℕ → String → RenderRecord) (P : Node → Prop)
    (hP : ∀ (n : Node) (name : String) (v : PValue), P n → P (n.setParm name v)) :
    ∀ (l : List ℕ) (cam rop : Node) (acc : List (RenderRecord × RenderCall)), P rop →
      P ((l.foldl (frameStep outName var_dir N deg mkRow) (cam, rop, acc)).2.1) := by
  intro l
  induction l with
  | nil => intro cam rop acc h; exact h
  | cons a t ih =>
    intro cam rop acc h
    exact ih _ _ _ (hP _ _ _ h)

lemma foldl_comboStep_rows (roughName lightName outName outdir : String) (cfg : SweepConfig) :
    ∀ (combos : List (ℚ × ℚ × ℤ)) (st : SweepState) (acc : List (RenderRecord × RenderCall)),
      ((combos.foldl (comboStep roughName lightName outName outdir cfg) (st, acc)).2).map stripPair
        = acc.map stripPair ++ combos.flatMap (comboRowKeys outdir cfg.turntable_frames) := by
  intro combos
  induction combos with
  | nil => intro st acc; simp
  | cons c t ih =>
    intro st acc
    simp only [List.foldl_cons, List.flatMap_cons]
    rcases hc : comboStep roughName lightName outName outdir cfg (st, acc) c with ⟨st', acc'⟩
    rw [ih st' acc']
    have hacc : acc' = acc ++ ((List.range cfg.turntable_frames).foldl
        (frameStep outName (varDirPath outdir c.1 c.2.1 c.2.2) cfg.turntable_frames
          cfg.turntable_degrees
          (fun frame out_file =>
            ⟨fmtFloat2 c.1, fmtFloat2 c.2.1, c.2.2, frame, out_file,
              (set_pixel_samples st.rop c.2.2).2⟩))
        (st.cam, (set_pixel_samples st.rop c.2.2).1, [])).2.2 :=
      congrArg Prod.snd hc.symm
    rw [hacc, foldl_frameStep_rows]
    simp [stripPair, comboRowKeys, Function.comp]

lemma runSweep_strip (roughName lightName outName outdir : String) (cfg : SweepConfig)
    (st : SweepState) :
    ((runSweep roughName lightName outName outdir cfg st).2).map stripPair
      = (combosList cfg).flatMap (comboRowKeys outdir cfg.turntable_frames) := by
  unfold runSweep
  rw [foldl_comboStep_rows]
  simp

lemma comboRowKeys_tuple (outdir : String) (N : ℕ) (c : ℚ × ℚ × ℤ) :
    (comboRowKeys outdir N c).map (fun x => x.1.1) = comboTupleKeys N c := by
  simp [comboRowKeys, comboTupleKeys, List.map_map, Function.comp]

lemma frameFilePath_varDirPath (outdir : String) (r li : ℚ) (ps : ℤ) (f : ℕ) :
    frameFilePath (varDirPath outdir r li ps) f
      = outdir ++ relPathOfKey (fmtFloat2 r, fmtFloat2 li, ps, f) := by
  simp [frameFilePath, varDirPath, relVarDir, relPathOfKey, String.append_assoc]

lemma comboRowKeys_path (outdir : String) (N : ℕ) (c : ℚ × ℚ × ℤ) :
    (comboRowKeys outdir N c).map (fun x => x.1.2)
      = (comboTupleKeys N c).map (fun k => outdir ++ relPathOfKey k) := by
  simp [comboRowKeys, comboTupleKeys, List.map_map, Function.comp, frameFilePath_varDirPath]

lemma comboRowKeys_call (outdir : String) (N : ℕ) (c : ℚ × ℚ × ℤ) :
    (comboRowKeys outdir N c).map (fun x => (x.1.1.2.2.2, x.1.2))
      = (comboRowKeys outdir N c).map Prod.snd := by
  simp [comboRowKeys, List.map_map, Function.comp]

lemma sweepPairs_map_eq {β : Type} (roughName lightName outName outdir : String)
    (cfg : SweepConfig) (st : SweepState)
    (f : RenderRecord × RenderCall → β)
    (g : ((String × String × ℤ × ℕ) × String) × RenderCall → β)
    (hf : ∀ x, f x = g (stripPair x)) :
    ((runSweep roughName lightName outName outdir cfg st).2).map f
      = ((combosList cfg).flatMap (comboRowKeys outdir cfg.turntable_frames)).map g := by
  rw [← runSweep_strip roughName lightName outName outdir cfg st, List.map_map]
  exact List.map_congr_left (fun x _ => hf x)

lemma mainSweep_tuples (roughName lightName outName outdir : String) (st : SweepState) :
    (sweepRecords roughName lightName outName outdir mainConfigK st).map rowTuple
      = mainTupleKeys := by
  unfold sweepRecords
  rw [List.map_map]
  rw [sweepPairs_map_eq roughName lightName outName outdir mainConfigK st
    (rowTuple ∘ Prod.fst) (fun x => x.1.1) (fun x => rfl)]
  rw [List.map_flatMap]
  simp only [comboRowKeys_tuple]
  rfl

lemma mainRelPaths_flatMap (outdir : String) :
    mainRelPaths.map (fun s => outdir ++ s)
      = (combosList mainConfigK).flatMap
          (fun c => (comboTupleKeys 12 c).map (fun k => outdir ++ relPathOfKey k)) := by
  unfold mainRelPaths mainTupleKeys
  rw [List.map_map, List.map_flatMap]
  rfl

lemma mainSweep_paths (roughName lightName outName outdir : String) (st : SweepState) :
    (sweepRecords roughName lightName outName outdir mainConfigK st).map RenderRecord.output_file
      = mainRelPaths.map (fun s => outdir ++ s) := by
  unfold sweepRecords
  rw [List.map_map]
  rw [sweepPairs_map_eq roughName lightName outName outdir mainConfigK st
    (RenderRecord.output_file ∘ Prod.fst) (fun x => x.1.2) (fun x => rfl)]
  rw [List.map_flatMap]
  simp only [comboRowKeys_path]
  rw [mainRelPaths_flatMap outdir]
  rfl

lemma mainSweep_calls (roughName lightName outName outdir : String) (st : SweepState) :
    (sweepRecords roughName lightName outName outdir mainConfigK st).map
        (fun rec => (rec.frame, rec.output_file))
      = sweepRenderCalls roughName lightName outName outdir mainConfigK st := by
  unfold sweepRecords sweepRenderCalls
  rw [List.map_map]
  rw [sweepPairs_map_eq roughName lightName outName outdir mainConfigK st
    ((fun rec : RenderRecord => (rec.frame, rec.output_file)) ∘ Prod.fst)
    (fun x => (x.1.1.2.2.2, x.1.2)) (fun x => rfl)]
  rw [sweepPairs_map_eq roughName lightName outName outdir mainConfigK st Prod.snd
    Prod.snd (fun x => rfl)]
  rw [List.map_flatMap, List.map_flatMap]
  simp only [comboRowKeys_call]

lemma find?_none_setParm (n : Node) (nm : String) (v : PValue) (pred : Parm → Bool)
    (hpred : ∀ p : Parm, pred ⟨p.name, p.label, v⟩ = pred p) :
    ((n.setParm nm v).parms.find? pred = none) ↔ (n.parms.find? pred = none) := by
  show ((n.parms.map _).find? pred = none) ↔ _
  rw [List.find?_map]
  rw [show (pred ∘ (fun p : Parm => if p.name == nm then ⟨p.name, p.label, v⟩ else p)) = pred from
    funext (fun p => by by_cases h : p.name == nm <;> simp [Function.comp, h, hpred])]
  simp

lemma parm_none_setParm (n : Node) (nm c : String) (v : PValue)
    (h : n.parm c = none) : (n.setParm nm v).parm c = none :=
  (find?_none_setParm n nm v (fun p => p.name == c) (fun _ => rfl)).mpr h

lemma fpblc_none_setParm (n : Node) (nm : String) (v : PValue) (needles : List String)
    (h : find_parm_by_label_contains n needles = none) :
    find_parm_by_label_contains (n.setParm nm v) needles = none := by
  simp only [find_parm_by_label_contains] at h ⊢
  exact (find?_none_setParm n nm v
    (fun p => (needles.map pyLower).any (fun nd => pyContains (pyLower p.labelText) nd)
      || (needles.map pyLower).any (fun nd => pyContains (pyLower p.name) nd))
    (fun _ => rfl)).mpr h

lemma psUnresolvable_setParm (rop : Node) (nm : String) (v : PValue)
    (h : psUnresolvable rop) : psUnresolvable (rop.setParm nm v) :=
  ⟨fun c hc => parm_none_setParm rop nm c v (h.1 c hc),
    fpblc_none_setParm rop nm v _ h.2⟩

lemma set_pixel_samples_unresolved (rop : Node) (samples : ℤ) (h : psUnresolvable rop) :
    set_pixel_samples rop samples = (rop, "<not_found>") := by
  unfold set_pixel_samples
  rw [List.findSome?_eq_none_iff.mpr h.1, h.2]

lemma psUnresolvable_foldl_frameStep (outName var_dir : String) (N : ℕ) (deg : ℚ)
    (mkRow : ℕ → String → RenderRecord) (l : List ℕ) (cam rop : Node)
    (acc : List (RenderRecord × RenderCall)) (h : psUnresolvable rop) :
    psUnresolvable ((l.foldl (frameStep outName var_dir N deg mkRow) (cam, rop, acc)).2.1) :=
  foldl_frameStep_rop outName var_dir N deg mkRow psUnresolvable
    (fun n nm v hn => psUnresolvable_setParm n nm v hn) l cam rop acc h

lemma sweepRecords_ps_used_aux (roughName lightName outName outdir : String) (cfg : SweepConfig) :
    ∀ (combos : List (ℚ × ℚ × ℤ)) (st : SweepState) (acc : List (RenderRecord × RenderCall)),
      psUnresolvable st.rop →
      (∀ x ∈ acc, x.1.ps_parm_used = "<not_found>") →
      ∀ x ∈ (combos.foldl (comboStep roughName lightName outName outdir cfg) (st, acc)).2,
        x.1.ps_parm_used = "<not_found>" := by
  intro combos
  induction combos with
  | nil => intro st acc _ hacc; simpa using hacc
  | cons c t ih =>
    intro st acc h hacc
    simp only [List.foldl_cons]
    have hsps := set_pixel_samples_unresolved st.rop c.2.2 h
    have hrop1 : (set_pixel_samples st.rop c.2.2).1 = st.rop := congrArg Prod.fst hsps
    have hused : (set_pixel_samples st.rop c.2.2).2 = "<not_found>" := congrArg Prod.snd hsps
    have hst' : psUnresolvable ((comboStep roughName lightName outName outdir cfg (st, acc) c).1).rop := by
      show psUnresolvable (((List.range cfg.turntable_frames).foldl
        (frameStep outName (varDirPath outdir c.1 c.2.1 c.2.2) cfg.turntable_frames
          cfg.turntable_degrees _) (st.cam, (set_pixel_samples st.rop c.2.2).1, [])).2.1)
      rw [hrop1]
      exact psUnresolvable_foldl_frameStep _ _ _ _ _ _ _ _ _ h
    have hacc' : ∀ x ∈ (comboStep roughName lightName outName outdir cfg (st, acc) c).2,
        x.1.ps_parm_used = "<not_found>" := by
      show ∀ x ∈ acc ++ ((List.range cfg.turntable_frames).foldl
        (frameStep outName (varDirPath outdir c.1 c.2.1 c.2.2) cfg.turntable_frames
          cfg.turntable_degrees
          (fun frame out_file => ⟨fmtFloat2 c.1, fmtFloat2 c.2.1, c.2.2, frame, out_file,
            (set_pixel_samples st.rop c.2.2).2⟩))
        (st.cam, (set_pixel_samples st.rop c.2.2).1, [])).2.2, x.1.ps_parm_used = "<not_found>"
      rw [foldl_frameStep_rows]
      intro x hx
      rcases List.mem_append.mp hx with hx1 | hx2
      · exact hacc x hx1
      · rcases List.mem_append.mp hx2 with hx3 | hx4
        · cases hx3
        · obtain ⟨i, _, hxe⟩ := List.mem_map.mp hx4
          rw [← hxe]
          exact hused
    exact ih (comboStep roughName lightName outName outdir cfg (st, acc) c).1
      (comboStep roughName lightName outName outdir cfg (st, acc) c).2 hst' hacc'

lemma comboRowKeys_frame (outdir : String) (N : ℕ) (c : ℚ × ℚ × ℤ) :
    (comboRowKeys outdir N c).map (fun x => x.2.1) = (List.range N).map (fun i => 1 + i) := by
  simp [comboRowKeys, List.map_map, Function.comp]

end RenderSweep1

lemma sub_output_in_output_picture :
    ("output" : String).data <:+: ("output picture" : String).data :=
  (containsChars_iff _ _).mp (by decide)

lemma sub_picture_in_output_picture :
    ("picture" : String).data <:+: ("output picture" : String).data :=
  (containsChars_iff _ _).mp (by decide)

lemma tier2Pred_contains_output (p : Parm) (h : RenderSweep.tier2Pred p = true) :
    pyContains (pyLower p.labelText) "output" = true
      ∨ pyContains (pyLower p.name) "output" = true := by
  simp only [RenderSweep.tier2Pred, Bool.or_eq_true, Bool.and_eq_true] at h
  rcases h with (h | ⟨_, h2⟩) | (h | ⟨_, h2⟩)
  · exact Or.inl (pyContains_mono _ _ _ sub_output_in_output_picture h)
  · exact Or.inl h2
  · exact Or.inr (pyContains_mono _ _ _ sub_output_in_output_picture h)
  · exact Or.inr h2

lemma tier2Pred_contains_picture (p : Parm) (h : RenderSweep.tier2Pred p = true) :
    pyContains (pyLower p.labelText) "picture" = true
      ∨ pyContains (pyLower p.name) "picture" = true := by
  simp only [RenderSweep.tier2Pred, Bool.or_eq_true, Bool.and_eq_true] at h
  rcases h with (h | ⟨h1, _⟩) | (h | ⟨h1, _⟩)
  · exact Or.inl (pyContains_mono _ _ _ sub_picture_in_output_picture h)
  · exact Or.inl h1
  · exact Or.inr (pyContains_mono _ _ _ sub_picture_in_output_picture h)
  · exact Or.inr h1

lemma opn_map_lower :
    RenderSweep1.output_picture_needles.map pyLower = ["output picture", "picture"] := by decide

lemma fpblc_opn_isSome_of_picture (rop : Node) (p : Parm) (hp : p ∈ rop.parms)
    (hpic : pyContains (pyLower p.labelText) "picture" = true
      ∨ pyContains (pyLower p.name) "picture" = true) :
    (RenderSweep1.find_parm_by_label_contains rop RenderSweep1.output_picture_needles).isSome
      = true := by
  simp only [RenderSweep1.find_parm_by_label_contains, opn_map_lower]
  rw [List.find?_isSome]
  refine ⟨p, hp, ?_⟩
  rcases hpic with h | h <;> simp [h]

lemma fpblc_opn_none_no_picture (rop : Node)
    (h : RenderSweep1.find_parm_by_label_contains rop RenderSweep1.output_picture_needles
      = none) :
    ∀ p ∈ rop.parms, pyContains (pyLower p.labelText) "picture" = false
      ∧ pyContains (pyLower p.name) "picture" = false := by
  intro p hp
  simp only [RenderSweep1.find_parm_by_label_contains, opn_map_lower] at h
  have hx := List.find?_eq_none.mp h p hp
  simp only [List.any_cons, List.any_nil, Bool.or_eq_true, Bool.or_false, not_or,
    Bool.not_eq_true] at hx
  exact ⟨hx.1.2, hx.2.2⟩

lemma tier3_none_of_no_picture (rop : Node)
    (hnp : ∀ p ∈ rop.parms, pyContains (pyLower p.labelText) "picture" = false) :
    RenderSweep.tier3 rop = none := by
  unfold RenderSweep.tier3
  rw [List.find?_eq_none]
  intro p hp hbeq
  have heq : pyLower (pyStrip p.labelText) = "picture" := beq_iff_eq.mp hbeq
  have hc := strip_lower_picture_contains _ heq
  rw [hnp p hp] at hc
  cases hc

lemma tier2_none_of_no_output (rop : Node)
    (hno : ∀ p ∈ rop.parms, pyContains (pyLower p.labelText) "output" = false
      ∧ pyContains (pyLower p.name) "output" = false) :
    RenderSweep.tier2 rop = none := by
  unfold RenderSweep.tier2
  rw [List.find?_eq_none]
  intro p hp hpred
  rcases tier2Pred_contains_output p hpred with h | h
  · rw [(hno p hp).1] at h; cases h
  · rw [(hno p hp).2] at h; cases h

lemma tier2_none_of_no_picture (rop : Node)
    (hnp : ∀ p ∈ rop.parms, pyContains (pyLower p.labelText) "picture" = false
      ∧ pyContains (pyLower p.name) "picture" = false) :
    RenderSweep.tier2 rop = none := by
  unfold RenderSweep.tier2
  rw [List.find?_eq_none]
  intro p hp hpred
  rcases tier2Pred_contains_picture p hpred with h | h
  · rw [(hnp p hp).1] at h; cases h
  · rw [(hnp p hp).2] at h; cases h

lemma candidates_subset (c : String)
    (hc : c ∈ RenderSweep.output_picture_candidates) :
    c ∈ RenderSweep1.output_picture_candidates := by
  simp only [RenderSweep.output_picture_candidates, List.mem_cons,
    List.not_mem_nil, or_false] at hc
  simp only [RenderSweep1.output_picture_candidates, List.mem_cons,
    List.not_mem_nil, or_false]
  tauto

/-- Claim C1 (counterexample): on `pictureOnlyNode` every parameter label
and name contains `picture` and never `output`, yet the tier-2 search of
`render_sweep1.py` returns a parameter, contradicting the claim that tier
2 returns no parameter for such nodes. -/
theorem claim_C1_counterexample :
    (∀ p ∈ pictureOnlyNode.parms,
        (pyContains (pyLower p.labelText) "picture" || pyContains (pyLower p.name) "picture")
            = true
        ∧ pyContains (pyLower p.labelText) "output" = false
        ∧ pyContains (pyLower p.name) "output" = false)
    ∧ RenderSweep.tier2 pictureOnlyNode = none
    ∧ RenderSweep1.find_parm_by_label_contains pictureOnlyNode
        RenderSweep1.output_picture_needles
        = some ⟨"picturefile", some "Picture File", .str ""⟩ := by decide

/-- Claim C1 (amended): in tier 2 of `render_sweep.py` the substring match
requires `output` to co-occur, so on a node whose parameters never
mention `output` the tier returns no parameter; in the tier-2 label
search of `render_sweep1.py` membership of `picture` alone suffices, so any
parameter whose lowered label or name contains `picture` makes the search
succeed. -/
theorem claim_C1_tier2_substring_search (rop : Node)
    (hno : ∀ p ∈ rop.parms, pyContains (pyLower p.labelText) "output" = false
      ∧ pyContains (pyLower p.name) "output" = false) :
    RenderSweep.tier2 rop = none
    ∧ ∀ p ∈ rop.parms,
        (pyContains (pyLower p.labelText) "picture" = true
          ∨ pyContains (pyLower p.name) "picture" = true) →
        (RenderSweep1.find_parm_by_label_contains rop
          RenderSweep1.output_picture_needles).isSome = true :=
  ⟨tier2_none_of_no_output rop hno,
    fun p hp hpic => fpblc_opn_isSome_of_picture rop p hp hpic⟩

/-- Claim C1 witness: the amended claim instantiated on a concrete node. -/
theorem claim_C1_witness :
    RenderSweep.tier2 pictureOnlyNodeW = none
    ∧ (RenderSweep1.find_parm_by_label_contains pictureOnlyNodeW
        RenderSweep1.output_picture_needles).isSome = true := by
  have h := claim_C1_tier2_substring_search pictureOnlyNodeW (by decide)
  exact ⟨h.1, h.2 ⟨"imgfile", some "Picture Path", .str ""⟩ (by decide) (by decide)⟩

set_option maxRecDepth 100000 in
/-- Claim C2: in the configured run (5 roughness × 3 light-intensity × 2
pixel-sample values × 12 turntable frames) exactly 360 Render Records are
emitted, their (roughness, light_intensity, pixel_samples, frame) tuples
are pairwise distinct, their output file paths are pairwise distinct, and
the records correspond 1:1, in order, to the render invocations. -/
theorem claim_C2_render_records (roughName lightName outName outdir : String)
    (st : RenderSweep1.SweepState) :
    (RenderSweep1.sweepRecords roughName lightName outName outdir
        RenderSweep1.mainConfig st).length = 360
    ∧ ((RenderSweep1.sweepRecords roughName lightName outName outdir
        RenderSweep1.mainConfig st).map RenderSweep1.rowTuple).Nodup
    ∧ ((RenderSweep1.sweepRecords roughName lightName outName outdir
        RenderSweep1.mainConfig st).map RenderSweep1.RenderRecord.output_file).Nodup
    ∧ (RenderSweep1.sweepRecords roughName lightName outName outdir
        RenderSweep1.mainConfig st).map (fun rec => (rec.frame, rec.output_file))
        = RenderSweep1.sweepRenderCalls roughName lightName outName outdir
            RenderSweep1.mainConfig st
    ∧ (RenderSweep1.sweepRenderCalls roughName lightName outName outdir
        RenderSweep1.mainConfig st).length = 360 := by
  rw [RenderSweep1.mainConfig_eq]
  have ht := RenderSweep1.mainSweep_tuples roughName lightName outName outdir st
  have hp := RenderSweep1.mainSweep_paths roughName lightName outName outdir st
  have hc := RenderSweep1.mainSweep_calls roughName lightName outName outdir st
  have hlen : (RenderSweep1.sweepRecords roughName lightName outName outdir
      RenderSweep1.mainConfigK st).length = 360 := by
    have h1 := congrArg List.length ht
    rw [List.length_map] at h1
    rw [h1]
    decide
  refine ⟨hlen, ?_, ?_, hc, ?_⟩
  · rw [ht]; exact RenderSweep1.mainTupleKeys_nodup
  · rw [hp]
    exact RenderSweep1.mainRelPaths_nodup.map (RenderSweep1.append_left_injective outdir)
  · have h2 := congrArg List.length hc
    rw [List.length_map] at h2
    rw [← h2, hlen]

set_option maxRecDepth 100000 in
/-- Claim C4: the driver emits the Render Records (and, in step, the
render invocations) in the Cartesian-product order of the configured
tuples — roughness outermost, then light intensity, then pixel samples,
then frame index innermost; that order is strictly increasing in the
lexicographic tuple order, hence fixed by the configuration and never
randomized. -/
theorem claim_C4_enumeration_order (roughName lightName outName outdir : String)
    (st : RenderSweep1.SweepState) :
    (RenderSweep1.sweepRecords roughName lightName outName outdir
        RenderSweep1.mainConfig st).map RenderSweep1.rowTuple
        = (RenderSweep1.specCartesianOrder RenderSweep1.mainConfig).map
            (fun t => (RenderSweep1.fmtFloat2 t.1, RenderSweep1.fmtFloat2 t.2.1,
              t.2.2.1, 1 + t.2.2.2))
    ∧ RenderSweep1.chainB RenderSweep1.tupleLexLt
        (RenderSweep1.specCartesianOrder RenderSweep1.mainConfig) = true
    ∧ (RenderSweep1.sweepRenderCalls roughName lightName outName outdir
        RenderSweep1.mainConfig st).map Prod.fst
        = (RenderSweep1.specCartesianOrder RenderSweep1.mainConfig).map
            (fun t => 1 + t.2.2.2) := by
  rw [RenderSweep1.mainConfig_eq]
  refine ⟨?_, by decide, ?_⟩
  · rw [RenderSweep1.mainSweep_tuples]
    decide
  · unfold RenderSweep1.sweepRenderCalls
    rw [List.map_map]
    rw [RenderSweep1.sweepPairs_map_eq roughName lightName outName outdir
      RenderSweep1.mainConfigK st (Prod.fst ∘ Prod.snd) (fun x => x.2.1) (fun x => rfl)]
    rw [List.map_flatMap]
    simp only [RenderSweep1.comboRowKeys_frame]
    decide

/-- Claim C3: for a turntable of `total_frames > 1` frames and rotation
span `degrees`, the rotation computed for frame index `i` is
`i/(total_frames-1) * degrees`; index 0 yields exactly 0, index
`total_frames-1` yields exactly `degrees`, and when the camera exposes an
`ry` parameter `rotate_camera_turntable` writes exactly that value. -/
theorem claim_C3_turntable_interpolation (cam : Node) (frame_idx total_frames : ℕ)
    (degrees : ℚ) (hN : 1 < total_frames) :
    RenderSweep1.turntable_ry frame_idx total_frames degrees
        = ((frame_idx : ℚ) / ((total_frames : ℚ) - 1)) * degrees
    ∧ RenderSweep1.turntable_ry 0 total_frames degrees = 0
    ∧ RenderSweep1.turntable_ry (total_frames - 1) total_frames degrees = degrees
    ∧ (∀ p, cam.parm "ry" = some p →
        RenderSweep1.rotate_camera_turntable cam frame_idx total_frames degrees
          = cam.setParm "ry" (.num (RenderSweep1.turntable_ry frame_idx total_frames degrees))) := by
  have hne : ((total_frames : ℚ) - 1) ≠ 0 := by
    have h1 : (1 : ℚ) < (total_frames : ℚ) := by exact_mod_cast hN
    intro hc
    rw [sub_eq_zero] at hc
    rw [← hc] at h1
    exact lt_irrefl _ h1
  refine ⟨rfl, by simp [RenderSweep1.turntable_ry], ?_, ?_⟩
  · unfold RenderSweep1.turntable_ry
    rw [Nat.cast_sub (le_of_lt hN), Nat.cast_one, div_self hne, one_mul]
  · intro p hp
    unfold RenderSweep1.rotate_camera_turntable
    rw [if_neg (by omega), hp]

/-- Claim C3 witness: the configured turntable (12 frames, 360 degrees)
at frame index 11 rotates to exactly 360, and at index 0 to exactly 0. -/
theorem claim_C3_witness :
    RenderSweep1.turntable_ry 11 12 360 = 360
    ∧ RenderSweep1.turntable_ry 0 12 360 = 0 :=
  ⟨(claim_C3_turntable_interpolation camC3 11 12 360 (by decide)).2.2.1,
    (claim_C3_turntable_interpolation camC3 11 12 360 (by decide)).2.1⟩

/-- Claim C5: when no pixel-sample candidate name exists on the ROP and
the label search also fails, `set_pixel_samples` raises no error, leaves
the node untouched and returns the `<not_found>` sentinel, and every
Render Record of the sweep carries that sentinel in its
`pixel_samples_parm_used` column. -/
theorem claim_C5_pixel_samples_sentinel (roughName lightName outName outdir : String)
    (st : RenderSweep1.SweepState) (samples : ℤ)
    (h1 : ∀ c ∈ RenderSweep1.pixel_samples_candidates, st.rop.parm c = none)
    (h2 : RenderSweep1.find_parm_by_label_contains st.rop
      RenderSweep1.pixel_samples_needles = none) :
    RenderSweep1.set_pixel_samples st.rop samples = (st.rop, "<not_found>")
    ∧ ∀ rec ∈ RenderSweep1.sweepRecords roughName lightName outName outdir
        RenderSweep1.mainConfig st, rec.ps_parm_used = "<not_found>" := by
  have h : RenderSweep1.psUnresolvable st.rop := ⟨h1, h2⟩
  refine ⟨RenderSweep1.set_pixel_samples_unresolved st.rop samples h, ?_⟩
  intro rec hrec
  unfold RenderSweep1.sweepRecords RenderSweep1.runSweep at hrec
  obtain ⟨x, hx, hxr⟩ := List.mem_map.mp hrec
  have hall := RenderSweep1.sweepRecords_ps_used_aux roughName lightName outName outdir
    RenderSweep1.mainConfig (RenderSweep1.combosList RenderSweep1.mainConfig) st [] h
    (by simp) x hx
  rw [← hxr]
  exact hall

/-- Claim C5 witness: on a concrete ROP without any sample-related
parameter, `set_pixel_samples` returns the node unchanged and the
sentinel. -/
theorem claim_C5_witness :
    RenderSweep1.set_pixel_samples stC5.rop 16 = (stC5.rop, "<not_found>") :=
  (claim_C5_pixel_samples_sentinel "rough" "light_intensity" "picture" "outputs" stC5 16
    (by decide) (by decide)).1

/-- Claim C6: in `render_sweep.py` the exact-label probe is a third tier,
consulted only after the candidate-name probe and the substring search
both fail; it returns the first parameter whose stripped, lowered label
is exactly `picture`, and only when it too fails does resolution raise an
error that names the node path. Moreover `render_sweep1.py`, which raises
directly after its second tier, only raises on nodes where the
exact-label probe would fail as well. -/
theorem claim_C6_exact_label_probe (rop : Node) :
    (∀ p, RenderSweep.tier1 rop = some p →
        RenderSweep.find_output_picture_parm rop = .ok p)
    ∧ (∀ p, RenderSweep.tier1 rop = none → RenderSweep.tier2 rop = some p →
        RenderSweep.find_output_picture_parm rop = .ok p)
    ∧ (∀ p, RenderSweep.tier1 rop = none → RenderSweep.tier2 rop = none →
        RenderSweep.tier3 rop = some p →
        RenderSweep.find_output_picture_parm rop = .ok p)
    ∧ (RenderSweep.tier1 rop = none → RenderSweep.tier2 rop = none →
        RenderSweep.tier3 rop = none →
        RenderSweep.find_output_picture_parm rop
          = .error (RenderSweep.outputParmError rop.path))
    ∧ rop.path.data <:+: (RenderSweep.outputParmError rop.path).data
    ∧ (∀ e, RenderSweep1.find_output_picture_parm rop = .error e →
        RenderSweep.tier3 rop = none) := by
  refine ⟨?_, ?_, ?_, ?_, ?_, ?_⟩
  · intro p h1
    unfold RenderSweep.find_output_picture_parm
    rw [h1]
  · intro p h1 h2
    unfold RenderSweep.find_output_picture_parm
    rw [h1, h2]
  · intro p h1 h2 h3
    unfold RenderSweep.find_output_picture_parm
    rw [h1, h2, h3]
  · intro h1 h2 h3
    unfold RenderSweep.find_output_picture_parm
    rw [h1, h2, h3]
  · show rop.path.data <:+:
      (("Could not locate an output image parm on " ++ rop.path)
        ++ ". Next step: in Houdini UI, right-click the Output Picture field -> Copy Parameter -> Copy Parameter Name, then tell me what you got.").data
    rw [String.data_append, String.data_append]
    exact List.infix_append _ _ _
  · intro e he
    unfold RenderSweep1.find_output_picture_parm at he
    cases h1 : RenderSweep1.output_picture_candidates.findSome? (fun c => rop.parm c) with
    | some q => rw [h1] at he; cases he
    | none =>
      rw [h1] at he
      cases h2 : RenderSweep1.find_parm_by_label_contains rop
          RenderSweep1.output_picture_needles with
      | some q => rw [h2] at he; cases he
      | none =>
        have hnp := fpblc_opn_none_no_picture rop h2
        exact tier3_none_of_no_picture rop (fun p hp => (hnp p hp).1)

/-- Claim C6 witness: the third tier resolves a node whose only
parameter has label ` Picture `. -/
theorem claim_C6_witness :
    RenderSweep.find_output_picture_parm exactLabelNode
      = .ok ⟨"foo", some " Picture ", .str ""⟩ :=
  (claim_C6_exact_label_probe exactLabelNode).2.2.1 ⟨"foo", some " Picture ", .str ""⟩
    (by decide) (by decide) (by decide)

/-- Claim C7 counterexample: on a node exposing both `vm_picture` and
`outputpicture`, `render_sweep.py` resolves `vm_picture` (its candidate
list tries it second) while `render_sweep1.py` resolves `outputpicture`
(its list tries it fourth, after `outputpicture`), so the two resolvers
return different parameters. -/
theorem claim_C7_counterexample :
    RenderSweep.find_output_picture_parm dualCandidateNode
        = .ok ⟨"vm_picture", none, .str ""⟩
    ∧ RenderSweep1.find_output_picture_parm dualCandidateNode
        = .ok ⟨"outputpicture", none, .str ""⟩
    ∧ RenderSweep.find_output_picture_parm dualCandidateNode
        ≠ RenderSweep1.find_output_picture_parm dualCandidateNode := by decide

/-- Claim C7 (amended): the two resolvers are not equivalent — they can
return different parameters — but the resolver of `render_sweep1.py`
succeeds on every node on which that of `render_sweep.py` succeeds. -/
theorem claim_C7_success_domination (rop : Node) (p : Parm)
    (h : RenderSweep.find_output_picture_parm rop = .ok p) :
    ∃ q, RenderSweep1.find_output_picture_parm rop = .ok q := by
  unfold RenderSweep1.find_output_picture_parm
  cases h1 : RenderSweep1.output_picture_candidates.findSome? (fun c => rop.parm c) with
  | some q => exact ⟨q, rfl⟩
  | none =>
    cases h2 : RenderSweep1.find_parm_by_label_contains rop
        RenderSweep1.output_picture_needles with
    | some q => exact ⟨q, rfl⟩
    | none =>
      exfalso
      have hall : ∀ c ∈ RenderSweep1.output_picture_candidates, rop.parm c = none :=
        List.findSome?_eq_none_iff.mp h1
      have htier1 : RenderSweep.tier1 rop = none := by
        unfold RenderSweep.tier1
        rw [List.findSome?_eq_none_iff]
        exact fun c hc => hall c (candidates_subset c hc)
      have hnp := fpblc_opn_none_no_picture rop h2
      have htier2 : RenderSweep.tier2 rop = none := tier2_none_of_no_picture rop hnp
      have htier3 : RenderSweep.tier3 rop = none :=
        tier3_none_of_no_picture rop (fun q hq => (hnp q hq).1)
      unfold RenderSweep.find_output_picture_parm at h
      rw [htier1, htier2, htier3] at h
      cases h

/-- Claim C7 witness: `render_sweep1.py` succeeds on a concrete node on
which `render_sweep.py` succeeds. -/
theorem claim_C7_witness :
    ∃ q, RenderSweep1.find_output_picture_parm vmPictureNode = .ok q :=
  claim_C7_success_domination vmPictureNode ⟨"vm_picture", some "Output Picture", .str ""⟩
    (by decide)

/-- Claim C8: both resolvers and the pixel-sample setter are
deterministic in the scene data — two calls on nodes with the same path
and the same parameter list (same names, labels, values, iteration
order) return identical results; in this pure embedding no call mutates
the node. -/
theorem claim_C8_resolver_deterministic (n₁ n₂ : Node) (hpath : n₁.path = n₂.path)
    (hparms : n₁.parms = n₂.parms) :
    RenderSweep.find_output_picture_parm n₁ = RenderSweep.find_output_picture_parm n₂
    ∧ RenderSweep1.find_output_picture_parm n₁ = RenderSweep1.find_output_picture_parm n₂
    ∧ ∀ s : ℤ, RenderSweep1.set_pixel_samples n₁ s = RenderSweep1.set_pixel_samples n₂ s := by
  have heq : n₁ = n₂ := by
    cases n₁
    cases n₂
    cases hpath
    cases hparms
    rfl
  subst heq
  exact ⟨rfl, rfl, fun _ => rfl⟩

/-- Claim C8 witness: two syntactically different but equal nodes give
the same resolution. -/
theorem claim_C8_witness :
    RenderSweep.find_output_picture_parm
        ⟨"/out/karma1", [⟨"picture", some "Output Picture", .str ""⟩]⟩
      = RenderSweep.find_output_picture_parm
        ⟨"/out/" ++ "karma1", [⟨"picture", some "Output Picture", .str ""⟩]⟩ :=
  (claim_C8_resolver_deterministic _ _ (by decide) (by decide)).1

/-- Claim C9: `build_contact_sheet` returns no path and raises no error
when the Pillow capability is unavailable or no file matches the glob;
on success with `count` images and `cols` columns the sheet has `cols`
columns and `ceil(count/cols)` rows of thumbnail cells. -/
theorem claim_C9_contact_sheet (outputs_dir : String)
    (images : List (String × RenderSweep1.PyImage)) (cols : ℕ) :
    RenderSweep1.build_contact_sheet none outputs_dir images cols = none
    ∧ (∀ api, RenderSweep1.build_contact_sheet (some api) outputs_dir [] cols = none)
    ∧ (∀ api, images ≠ [] → ∃ sheet,
        RenderSweep1.build_contact_sheet (some api) outputs_dir images cols
          = some (outputs_dir ++ "/contact_sheet.png", sheet)
        ∧ sheet.cols = cols
        ∧ sheet.rows = (images.length + cols - 1) / cols
        ∧ sheet.rows = images.length ⌈/⌉ cols) := by
  refine ⟨rfl, fun api => rfl, fun api hne => ?_⟩
  have hni : images.isEmpty = false := by
    cases images with
    | nil => exact absurd rfl hne
    | cons a t => rfl
  refine ⟨⟨cols, (images.length + cols - 1) / cols,
      ((images.map (fun pi => (pi.1, api.thumbnail pi.2))).map (fun t => t.2.width)).foldl max 0,
      ((images.map (fun pi => (pi.1, api.thumbnail pi.2))).map (fun t => t.2.height)).foldl max 0⟩,
    ?_, rfl, rfl, (Nat.ceilDiv_eq_add_pred_div _ _).symm⟩
  simp [RenderSweep1.build_contact_sheet, hni, List.length_map]

/-- Claim C9 witness: seven images at six columns yield a two-row sheet. -/
theorem claim_C9_witness :
    ∃ sheet, RenderSweep1.build_contact_sheet (some apiC9) "outputs" imagesC9 6
        = some ("outputs" ++ "/contact_sheet.png", sheet)
      ∧ sheet.cols = 6 ∧ sheet.rows = 2 := by
  obtain ⟨sheet, hs, hc, hr, _⟩ :=
    (claim_C9_contact_sheet "outputs" imagesC9 6).2.2 apiC9 (by decide)
  exact ⟨sheet, hs, hc, by rw [hr]; rfl⟩

/-- Claim C10: `rotate_camera_turntable` writes at most the `ry`
parameter: with `total_frames ≤ 1`, or without an `ry` parameter, the
camera is returned unchanged; otherwise the node path, the parameter
count, and every parameter not named `ry` are preserved. -/
theorem claim_C10_turntable_frame (cam : Node) (frame_idx total_frames : ℕ)
    (degrees : ℚ) :
    (total_frames ≤ 1 →
        RenderSweep1.rotate_camera_turntable cam frame_idx total_frames degrees = cam)
    ∧ (cam.parm "ry" = none →
        RenderSweep1.rotate_camera_turntable cam frame_idx total_frames degrees = cam)
    ∧ (RenderSweep1.rotate_camera_turntable cam frame_idx total_frames degrees).path
        = cam.path
    ∧ (RenderSweep1.rotate_camera_turntable cam frame_idx total_frames degrees).parms.length
        = cam.parms.length
    ∧ (∀ (i : ℕ) (p : Parm), cam.parms[i]? = some p → p.name ≠ "ry" →
        (RenderSweep1.rotate_camera_turntable cam frame_idx total_frames degrees).parms[i]?
          = some p) := by
  refine ⟨?_, ?_, ?_, ?_, ?_⟩
  · intro h
    unfold RenderSweep1.rotate_camera_turntable
    rw [if_pos h]
  · intro h
    unfold RenderSweep1.rotate_camera_turntable
    by_cases hN : total_frames ≤ 1
    · rw [if_pos hN]
    · rw [if_neg hN, h]
  · unfold RenderSweep1.rotate_camera_turntable
    by_cases hN : total_frames ≤ 1
    · rw [if_pos hN]
    · rw [if_neg hN]
      cases cam.parm "ry" with
      | none => rfl
      | some q => rfl
  · unfold RenderSweep1.rotate_camera_turntable
    by_cases hN : total_frames ≤ 1
    · rw [if_pos hN]
    · rw [if_neg hN]
      cases cam.parm "ry" with
      | none => rfl
      | some q =>
        show (cam.parms.map _).length = cam.parms.length
        rw [List.length_map]
  · intro i p hp hne
    unfold RenderSweep1.rotate_camera_turntable
    by_cases hN : total_frames ≤ 1
    · rw [if_pos hN]
      exact hp
    · rw [if_neg hN]
      cases cam.parm "ry" with
      | none => exact hp
      | some q =>
        show (cam.parms.map _)[i]? = some p
        rw [List.getElem?_map, hp]
        have hb : (p.name == "ry") = false := beq_eq_false_iff_ne.mpr hne
        simp [hb]
        exact fun hc => absurd hc hne

/-- Claim C10 witness: a single-frame turntable leaves the camera
untouched, and a real rotation leaves the `tx` parameter untouched. -/
theorem claim_C10_witness :
    RenderSweep1.rotate_camera_turntable camC10 3 1 360 = camC10
    ∧ (RenderSweep1.rotate_camera_turntable camC10 3 12 360).parms[0]?
        = some ⟨"tx", some "Translate X", .num 5⟩ :=
  ⟨(claim_C10_turntable_frame camC10 3 1 360).1 (by decide),
    (claim_C10_turntable_frame camC10 3 12 360).2.2.2.2 0 ⟨"tx", some "Translate X", .num 5⟩
      (by decide) (by decide)⟩
